import Mathlib

/-!
Verification of the step/command layer of quibble (`quibble/commands.py`).

Each `execute` method (and the helpers it calls) is shallowly embedded as a
pure Lean function from the constructor parameters of the step plus an explicit
model of the ambient world (which external commands fail, what the
changed-file detector returned, which files exist) to a trace of observable
events (log lines, spawned processes, service starts/stops) together with an
optional propagated error.  Python dictionaries used as process environments
are embedded as functions `String → Option String`.
-/

namespace Quibble

/-- Observable events emitted by one `execute()` call: log lines at the three
levels used by the source, spawned subprocesses (`subprocess.check_call`) with
their argument vector and working directory, service-handle starts/stops (the
start carries the argument the handle was constructed with), the MediaWiki
maintenance operations, and the LocalSettings.php rewrite. -/
inductive Event where
  | logInfo (msg : String)
  | logWarning (msg : String)
  | logError (msg : String)
  | proc (argv : List String) (cwd : String)
  | svcStart (name : String) (arg : String)
  | svcStop (name : String) (arg : String)
  | mwInstall (args : List String) (mwdir : String)
  | mwUpdate (args : List String) (mwdir : String)
  | mwRebuildLC (lang : List String) (mwdir : String)
  | writeLocalSettings (path : String)
  deriving DecidableEq

/-- A propagated `subprocess.CalledProcessError`: the failing command and the
working directory it was spawned in. -/
structure CPE where
  argv : List String
  cwd : String
  deriving DecidableEq

/-- The environment of one run: which subprocess invocations fail (by argument
vector and working directory), mirroring that a spawned process either exits 0
or raises `CalledProcessError`. -/
def ProcOracle : Type := List String → String → Bool

/-- Python `dict.update`: every key of the second dictionary wins, every other
key keeps the value from the first dictionary. -/
def dictUpdate (d e : String → Option String) : String → Option String :=
  fun k => match e k with
    | some v => some v
    | none => d k

/-- Python truthiness of an optional string: `None` and the empty string are
falsy. -/
def strTruthy : Option String → Bool
  | none => false
  | some s => !(s == "")

/-- Python `x or y` for an optional string versus a string default. -/
def strOrElse (x : Option String) (y : String) : String :=
  match x with
  | none => y
  | some s => if s == "" then y else s

/-- The environment built by `CoreNpmComposerTest.run_composer_test`:
`env` initialized to the overlay mapping COMPOSER_PROCESS_TIMEOUT to 900, followed by
`env.update(os.environ)`, so the ambient environment is merged over the
overlay. -/
def composerTestEnv (environ : String → Option String) : String → Option String :=
  dictUpdate (fun k => if k == "COMPOSER_PROCESS_TIMEOUT" then some "900" else none) environ

/-- The environment built by `AbstractPhpUnit.run_phpunit`:
`phpunit_env = {}`, `phpunit_env.update(os.environ)`,
then updated with the LANG to C.UTF-8 overlay, so the `LANG` overlay is merged
over the ambient environment. -/
def phpunitEnv (environ : String → Option String) : String → Option String :=
  dictUpdate (dictUpdate (fun _ => none) environ) (fun k => if k == "LANG" then some "C.UTF-8" else none)

/-- Python `sep.join(parts)`. -/
def pyJoin (sep : String) : List String → String
  | [] => ""
  | [s] => s
  | s :: rest => s ++ sep ++ pyJoin sep rest

/-- Recognizer for service-stop events. -/
def isSvcStop : Event → Bool
  | Event.svcStop _ _ => true
  | _ => false

/-- The service handles started in a trace, in order, each with the argument
it was started with. -/
def startsOf (t : List Event) : List (String × String) :=
  t.filterMap fun e => match e with
    | Event.svcStart n a => some (n, a)
    | _ => none

/-- The service handles stopped in a trace, in order. -/
def stopsOf (t : List Event) : List (String × String) :=
  t.filterMap fun e => match e with
    | Event.svcStop n a => some (n, a)
    | _ => none

/-- The subprocess invocations of a trace, in order: argument vector and
working directory. -/
def procsOf (t : List Event) : List (List String × String) :=
  t.filterMap fun e => match e with
    | Event.proc argv cwd => some (argv, cwd)
    | _ => none

/-! ### InstallMediaWiki -/

/-- The connection attributes of the database handle constructed by the
(external) backend class: `dbname`, `rootdir`, `user`, `password`,
`dbserver` as read by `InstallMediaWiki.execute`. -/
structure DBHandle where
  dbname : String
  rootdir : String
  user : String
  password : String
  dbserver : String
  deriving DecidableEq

/-- Constructor parameters of `InstallMediaWiki`. -/
structure InstallMediaWiki where
  mw_install_path : String
  db_engine : String
  db_dir : String
  dump_dir : String
  log_dir : String
  use_vendor : Bool
  deriving DecidableEq

/-- Modelled from the spec: `quibble.backend.getDBClass` is not under `src/`.
The spec says a database adapter factory, "given an engine name, returns a
constructor for a Database handle; unknown engine name is a configuration
failure, not a runtime one", the supported engines being sqlite, mysql and
postgres. -/
def getDBClass (engine : String) : Except String Unit :=
  if engine == "sqlite" || engine == "mysql" || engine == "postgres" then Except.ok ()
  else Except.error ("Unknown database engine " ++ engine)

/-- Which of the external operations invoked by `InstallMediaWiki.execute`
fail: `db.start()`, the maintenance `install`/`update`, the localisation
cache rebuild, and arbitrary subprocesses. -/
structure MWOracle where
  procFails : ProcOracle
  dbStartFails : Bool
  installFails : Bool
  updateFails : Bool
  rebuildFails : Bool

/-- `InstallMediaWiki.execute` from the maintenance-install call onwards:
install, rewrite of LocalSettings.php (the `copylog` duplications into the
log directory are pure log-copying by the external `quibble.util.copylog`
and are not given events), `php -l` lint, maintenance update (with
`--skip-external-dependencies` when vendor is used), and the localisation
cache rebuild.  Returns the emitted events and the propagated error, if
any. -/
def InstallMediaWiki.installPhase (c : InstallMediaWiki) (o : MWOracle)
    (install_args : List String) : List Event × Option String :=
  let t0 := [Event.mwInstall install_args c.mw_install_path]
  if o.installFails then (t0, some "maintenance install failed")
  else
    let localsettings := c.mw_install_path ++ "/LocalSettings.php"
    let lint := ["php", "-l", localsettings]
    let t1 := t0 ++ [Event.writeLocalSettings localsettings, Event.proc lint ""]
    if o.procFails lint "" then (t1, some "php lint failed")
    else
      let update_args := if c.use_vendor then ["--skip-external-dependencies"] else []
      let t2 := t1
        ++ (if c.use_vendor then
              [Event.logInfo "mediawiki/vendor used. Skipping external dependencies"]
            else [])
        ++ [Event.mwUpdate update_args c.mw_install_path]
      if o.updateFails then (t2, some "maintenance update failed")
      else
        let t3 := t2 ++ [Event.mwRebuildLC ["en"] c.mw_install_path]
        if o.rebuildFails then (t3, some "rebuildLocalisationCache failed")
        else (t3, none)

/-- `InstallMediaWiki.execute`: obtains the backend class from the engine
name, stores the constructed handle in the class-level attribute
`InstallMediaWiki.db_backend` ("hold a reference to prevent gc"), starts the
database, assembles the installer arguments per engine (raising
"Unsupported database" for any other engine), then runs the install phase.
Returns the trace, the propagated error and the final value of the
class-level `db_backend` attribute (initially `None`). -/
def InstallMediaWiki.executeModel (c : InstallMediaWiki) (db : DBHandle)
    (o : MWOracle) : List Event × Option String × Option DBHandle :=
  match getDBClass c.db_engine with
  | Except.error e => ([], some e, none)
  | Except.ok _ =>
    let t0 := [Event.svcStart "database" c.db_engine]
    if o.dbStartFails then (t0, some "database failed to start", some db)
    else
      let base_args := ["--scriptpath=", "--dbtype=" ++ c.db_engine, "--dbname=" ++ db.dbname]
      if c.db_engine == "sqlite" then
        let r := InstallMediaWiki.installPhase c o (base_args ++ ["--dbpath=" ++ db.rootdir])
        (t0 ++ r.1, r.2, some db)
      else if c.db_engine == "mysql" || c.db_engine == "postgres" then
        let r := InstallMediaWiki.installPhase c o
          (base_args ++ ["--dbuser=" ++ db.user, "--dbpass=" ++ db.password,
                         "--dbserver=" ++ db.dbserver])
        (t0 ++ r.1, r.2, some db)
      else
        (t0, some ("Unsupported database: " ++ c.db_engine), some db)

/-! ### BrowserTests -/

/-- Constructor parameters of `BrowserTests`; `display` is `None` or a
string (Python treats `None` and the empty string as falsy). -/
structure BrowserTests where
  mw_install_path : String
  qunit : Bool
  selenium : Bool
  display : Option String
  deriving DecidableEq

/-- The ambient world a `BrowserTests.execute` call runs in: whether
`tests/selenium` exists under the install path, and which subprocesses
fail. -/
structure BTWorld where
  seleniumDirExists : Bool
  procFails : ProcOracle

/-- The grunt qunit command run by `BrowserTests.run_qunit`. -/
def qunitCmd : List String := ["./node_modules/.bin/grunt", "qunit"]

/-- The npm selenium command run by `BrowserTests.run_webdriver`. -/
def webdriverCmd : List String := ["npm", "run", "selenium-test"]

/-- `BrowserTests.execute`: opens a `DevWebServer` on the fixed port 9412
for the whole body; runs qunit if requested; if selenium is requested and
`tests/selenium` exists, enters an `ExitStack` in which, when no display was
supplied, `self.display` is set to `:94` and an `Xvfb` handle is entered
on the stack, then a `ChromeWebDriver` bound to the display runs the
webdriver tests.  Context managers unwind in reverse order on every exit
path.  Returns the trace, the propagated error and the final value of
`self.display`. -/
def BrowserTests.executeModel (c : BrowserTests) (w : BTWorld) :
    List Event × Option CPE × Option String :=
  let wsStart := Event.svcStart "DevWebServer" "9412"
  let wsStop := Event.svcStop "DevWebServer" "9412"
  if c.qunit && w.procFails qunitCmd c.mw_install_path then
    ([wsStart, Event.proc qunitCmd c.mw_install_path, wsStop],
     some ⟨qunitCmd, c.mw_install_path⟩, c.display)
  else
    let tq := if c.qunit then [Event.proc qunitCmd c.mw_install_path] else []
    if c.selenium && w.seleniumDirExists then
      let usedXvfb := !(strTruthy c.display)
      let dStr := if strTruthy c.display then strOrElse c.display "" else ":94"
      let xvfbPre :=
        if usedXvfb then
          [Event.logInfo "No DISPLAY, using Xvfb.", Event.svcStart "Xvfb" ":94"]
        else []
      let xvfbPost := if usedXvfb then [Event.svcStop "Xvfb" ":94"] else []
      let t := [wsStart] ++ tq ++ xvfbPre
        ++ [Event.svcStart "ChromeWebDriver" dStr,
            Event.proc webdriverCmd c.mw_install_path,
            Event.svcStop "ChromeWebDriver" dStr]
        ++ xvfbPost ++ [wsStop]
      let err := if w.procFails webdriverCmd c.mw_install_path then
          some (CPE.mk webdriverCmd c.mw_install_path) else none
      (t, err, if usedXvfb then some ":94" else c.display)
    else
      ([wsStart] ++ tq ++ [wsStop], none, c.display)

/-- `BrowserTests.__str__`: lists the requested test kinds and the display
(`self.display or "Xvfb"`). -/
def BrowserTests.strModel (c : BrowserTests) : String :=
  let tests := (if c.qunit then ["qunit"] else [])
    ++ (if c.selenium then ["selenium (maybe)"] else [])
  "Browser tests in " ++ c.mw_install_path ++ ": " ++ pyJoin ", " tests
    ++ " using DISPLAY=" ++ strOrElse c.display "Xvfb"

/-! ### CoreNpmComposerTest -/

/-- Constructor parameters of `CoreNpmComposerTest`. -/
structure CoreNpmComposerTest where
  mw_install_path : String
  composer : Bool
  npm : Bool
  deriving DecidableEq

/-- `CoreNpmComposerTest.run_composer_test`.  The changed-file detector
`GitChangedInHead` lives in `quibble.gitchangedinhead` (an external
collaborator); its two outputs are supplied as inputs: `changedAll` is
`GitChangedInHead([]).changedFiles()` and `changedPhp` is
the detector output filtered to the php, php5, inc and sample extensions.  When
composer.json or .phpcs.xml changed, the path `.` is linted; otherwise the changed
php files are; when there is nothing to lint the step logs a skip decision
and spawns nothing.  The spawned composer test runs with the
`composerTestEnv` environment. -/
def CoreNpmComposerTest.run_composer_test (c : CoreNpmComposerTest)
    (changedAll changedPhp : List String) (fails : ProcOracle) :
    List Event × Option CPE :=
  let cond := changedAll.contains "composer.json" || changedAll.contains ".phpcs.xml"
  let files := if cond then ["."] else changedPhp
  let pre :=
    if cond then [Event.logInfo "composer.json or .phpcs.xml changed: linting \".\""]
    else []
  if files.isEmpty then
    (pre ++ [Event.logInfo "Skipping composer test (unneeded)"], none)
  else
    let cmd := ["composer", "test"] ++ files
    (pre ++ [Event.logInfo "Running composer test", Event.proc cmd c.mw_install_path],
     if fails cmd c.mw_install_path then some ⟨cmd, c.mw_install_path⟩ else none)

/-! ### ExtSkinSubmoduleUpdateCommand -/

/-- One directory visited by the `os.walk` crawl in
`ExtSkinSubmoduleUpdateCommand.execute`, after its first-level pruning of
`dirnames`: the directory path and the filenames it holds.  `os.walk` is
external; the visited entries are supplied as input. -/
structure WalkEntry where
  dirpath : String
  filenames : List String

/-- The three git submodule commands run, in order, for every directory that
has a `.gitmodules` file. -/
def submoduleCmds : List (List String) :=
  [["git", "submodule", "foreach", "git", "clean", "-xdff", "-q"],
   ["git", "submodule", "update", "--init", "--recursive"],
   ["git", "submodule", "status"]]

/-- The inner command loop of `ExtSkinSubmoduleUpdateCommand.execute`: run
each command in the directory; on a `CalledProcessError`, log an error for
the directory and re-raise that same error, issuing no further commands. -/
def runSubmoduleCmds (fails : ProcOracle) (dirpath : String) :
    List (List String) → List Event × Option CPE
  | [] => ([], none)
  | cmd :: rest =>
    if fails cmd dirpath then
      ([Event.proc cmd dirpath,
        Event.logError ("Failed to process git submodules for " ++ dirpath)],
       some ⟨cmd, dirpath⟩)
    else
      let r := runSubmoduleCmds fails dirpath rest
      (Event.proc cmd dirpath :: r.1, r.2)

/-- The directory crawl of `ExtSkinSubmoduleUpdateCommand.execute`:
directories without a `.gitmodules` file are skipped (`continue`); for the
others the three submodule commands run, and a raised error propagates out
of the whole crawl. -/
def walkDirs (fails : ProcOracle) : List WalkEntry → List Event × Option CPE
  | [] => ([], none)
  | entry :: rest =>
    if entry.filenames.contains ".gitmodules" then
      let r := runSubmoduleCmds fails entry.dirpath submoduleCmds
      match r.2 with
      | some e => (r.1, some e)
      | none =>
        let r2 := walkDirs fails rest
        (r.1 ++ r2.1, r2.2)
    else walkDirs fails rest

/-- `ExtSkinSubmoduleUpdateCommand.execute`: logs the update notice then
crawls the visited directories. -/
def ExtSkinSubmoduleUpdateCommand.executeModel (fails : ProcOracle)
    (entries : List WalkEntry) : List Event × Option CPE :=
  let r := walkDirs fails entries
  (Event.logInfo "Updating git submodules of extensions and skins" :: r.1, r.2)

/-- The full sequence of commands `ExtSkinSubmoduleUpdateCommand.execute`
would issue if nothing failed: for each visited directory with a
`.gitmodules` file, the three submodule commands in order. -/
def plannedCmds (entries : List WalkEntry) : List (List String × String) :=
  (entries.filter fun d => d.filenames.contains ".gitmodules").flatMap
    fun d => submoduleCmds.map fun cmd => (cmd, d.dirpath)

/-! ### AbstractPhpUnit -/

/-- The groups `AbstractPhpUnit.run_phpunit` always excludes. -/
def alwaysExcluded : List String := ["Broken", "ParserFuzz", "Stub"]

/-- The phpunit command assembled by `AbstractPhpUnit.run_phpunit` from the
`testsuite` and `junit_file` attributes of the step and the caller supplied `group` and
`exclude_group` arguments (Python truthiness gates the optional parts). -/
def runPhpunitCmd (testsuite junit_file : Option String)
    (group exclude_group : List String) : List String :=
  ["php", "tests/phpunit/phpunit.php", "--debug-tests"]
  ++ (if strTruthy testsuite then ["--testsuite", strOrElse testsuite ""] else [])
  ++ (if group.isEmpty then [] else ["--group", pyJoin "," group])
  ++ ["--exclude-group", pyJoin "," (alwaysExcluded ++ exclude_group)]
  ++ (if strTruthy junit_file then ["--log-junit", strOrElse junit_file ""] else [])

/-- `AbstractPhpUnit.run_phpunit`: logs the command (the initial
`log.info(self)` line is a pure log of the step description), spawns it in
the install path with the `phpunitEnv` environment, and propagates a
failure. -/
def AbstractPhpUnit.run_phpunit (mw_install_path : String)
    (testsuite junit_file : Option String) (group exclude_group : List String)
    (fails : ProcOracle) : List Event × Option CPE :=
  let cmd := runPhpunitCmd testsuite junit_file group exclude_group
  ([Event.logInfo (pyJoin " " cmd), Event.proc cmd mw_install_path],
   if fails cmd mw_install_path then some ⟨cmd, mw_install_path⟩ else none)

/-- Constructor parameters of `PhpUnitDatabaseless`; its `junit_file` is
`os.path.join` of its log dir and junit-dbless.xml. -/
structure PhpUnitDatabaseless where
  mw_install_path : String
  testsuite : Option String
  log_dir : String
  deriving DecidableEq

/-- `PhpUnitDatabaseless.execute`: `run_phpunit` with exclude_group Database. -/
def PhpUnitDatabaseless.executeModel (c : PhpUnitDatabaseless)
    (fails : ProcOracle) : List Event × Option CPE :=
  AbstractPhpUnit.run_phpunit c.mw_install_path c.testsuite
    (some (c.log_dir ++ "/junit-dbless.xml")) [] ["Database"] fails

/-- Constructor parameters of `PhpUnitDatabase`; its `junit_file` is
`os.path.join` of its log dir and junit-db.xml. -/
structure PhpUnitDatabase where
  mw_install_path : String
  testsuite : Option String
  log_dir : String
  deriving DecidableEq

/-- `PhpUnitDatabase.execute`: `run_phpunit` with group Database. -/
def PhpUnitDatabase.executeModel (c : PhpUnitDatabase)
    (fails : ProcOracle) : List Event × Option CPE :=
  AbstractPhpUnit.run_phpunit c.mw_install_path c.testsuite
    (some (c.log_dir ++ "/junit-db.xml")) ["Database"] [] fails

/-- Split a character list at commas (the comma-separated fields of a
string, as phpunit itself reads an `--exclude-group` value). -/
def splitCommasAux : List Char → List (List Char)
  | [] => [[]]
  | c :: cs =>
    if c == ',' then [] :: splitCommasAux cs
    else
      match splitCommasAux cs with
      | [] => [[c]]
      | h :: t => (c :: h) :: t

/-- The comma-separated fields of a string. -/
def splitCommas (s : String) : List String :=
  (splitCommasAux s.data).map fun cs => String.mk cs

/-! ### ExtSkinComposerNpmTest -/

/-- Constructor parameters of `ExtSkinComposerNpmTest`. -/
structure ExtSkinComposerNpmTest where
  directory : String
  composer : Bool
  npm : Bool
  deriving DecidableEq

/-- The ambient world of an `ExtSkinComposerNpmTest` run: whether the
directory has a composer.json / package.json, and which subprocesses
fail. -/
structure ESWorld where
  composerJsonExists : Bool
  packageJsonExists : Bool
  procFails : ProcOracle

/-- Python `os.path.basename`. -/
def pyBasename (p : String) : String :=
  ((p.split fun ch => ch == '/').getLast?).getD ""

/-- Run a list of commands in a working directory, stopping at (and
propagating) the first failure, as a sequence of `subprocess.check_call`
calls does. -/
def runCmds (fails : ProcOracle) (cwd : String) :
    List (List String) → List Event × Option CPE
  | [] => ([], none)
  | cmd :: rest =>
    if fails cmd cwd then ([Event.proc cmd cwd], some ⟨cmd, cwd⟩)
    else
      let r := runCmds fails cwd rest
      (Event.proc cmd cwd :: r.1, r.2)

/-- The composer commands of `ExtSkinComposerNpmTest.run_extskin_composer`. -/
def extskinComposerCmds : List (List String) :=
  [["composer", "--ansi", "validate", "--no-check-publish"],
   ["composer", "--ansi", "install", "--no-progress", "--prefer-dist", "--profile", "-v"],
   ["composer", "--ansi", "test"]]

/-- The npm commands of `ExtSkinComposerNpmTest.run_extskin_npm`. -/
def extskinNpmCmds : List (List String) :=
  [["npm", "prune"], ["npm", "install", "--no-progress"], ["npm", "test"]]

/-- `ExtSkinComposerNpmTest.run_extskin_composer`: when the directory lacks
a composer.json, log a warning and return; otherwise run the composer
commands in the directory. -/
def ExtSkinComposerNpmTest.run_extskin_composer (c : ExtSkinComposerNpmTest)
    (w : ESWorld) : List Event × Option CPE :=
  if !w.composerJsonExists then
    ([Event.logWarning (pyBasename c.directory ++ " lacks a composer.json")], none)
  else
    let r := runCmds w.procFails c.directory extskinComposerCmds
    (Event.logInfo ("Running \"composer test\" for " ++ pyBasename c.directory) :: r.1,
     r.2)

/-- `ExtSkinComposerNpmTest.run_extskin_npm`: when the directory lacks a
package.json, log a warning and return; otherwise run the npm commands in
the directory. -/
def ExtSkinComposerNpmTest.run_extskin_npm (c : ExtSkinComposerNpmTest)
    (w : ESWorld) : List Event × Option CPE :=
  if !w.packageJsonExists then
    ([Event.logWarning (pyBasename c.directory ++ " lacks a package.json")], none)
  else
    let r := runCmds w.procFails c.directory extskinNpmCmds
    (Event.logInfo ("Running \"npm test\" for " ++ pyBasename c.directory) :: r.1,
     r.2)

/-- `ExtSkinComposerNpmTest.execute`: submits the composer task (when the
composer flag is set) and the npm task (when the npm flag is set) to
`parallel_run`, then runs `git clean -xqdf` in the directory.
`quibble.util.parallel_run` is not under `src/`; modelled from the spec:
the Parallel Task Runner "returns normally only if all N succeeded", lets
already-started callables finish even when a sibling fails, and "N = 0 is a
no-op that returns immediately"; ordering between the callables is
explicitly unspecified, and the trace linearizes them in submission order.
The git clean runs only when the batch returned normally. -/
def ExtSkinComposerNpmTest.executeModel (c : ExtSkinComposerNpmTest)
    (w : ESWorld) : List Event × Option CPE :=
  let tc := if c.composer then ExtSkinComposerNpmTest.run_extskin_composer c w
            else ([], none)
  let tn := if c.npm then ExtSkinComposerNpmTest.run_extskin_npm c w
            else ([], none)
  let batchTrace := tc.1 ++ tn.1
  let batchErr := match tc.2 with
    | some e => some e
    | none => tn.2
  match batchErr with
  | some e => (batchTrace, some e)
  | none =>
    let gitCleanCmd := ["git", "clean", "-xqdf"]
    (batchTrace
      ++ [Event.logInfo (c.directory ++ ": git clean -xqdf"),
          Event.proc gitCleanCmd c.directory],
     if w.procFails gitCleanCmd c.directory then
       some ⟨gitCleanCmd, c.directory⟩
     else none)

/-! ### Shared helper facts -/

/-- An oracle under which no external operation fails. -/
def mwNoFail : MWOracle :=
  ⟨fun _ _ => false, false, false, false, false⟩

/-- A concrete sqlite `InstallMediaWiki` step. -/
def c1Step : InstallMediaWiki := ⟨"/w", "sqlite", "/db", "/dump", "/log", false⟩

/-- A concrete database handle as constructed by the backend. -/
def c1DB : DBHandle := ⟨"testwiki", "/r", "u", "p", "s"⟩

end Quibble

namespace Quibble

/-! ### C2 -/

/-- C2, counterexample: the claim says that for every key present in an
environment overlay the spawned process sees the value from the overlay, and that
this holds for the `COMPOSER_PROCESS_TIMEOUT` overlay of
`CoreNpmComposerTest.run_composer_test`.  At an ambient environment that
already sets `COMPOSER_PROCESS_TIMEOUT` to `1`, the spawned composer
process sees `1`, not the `900` from the overlay: the source merges the ambient
environment over the overlay (`env.update(os.environ)`), not the other way
round. -/
theorem C2_overlay_counterexample :
    composerTestEnv
      (fun k => if k == "COMPOSER_PROCESS_TIMEOUT" then some "1" else none)
      "COMPOSER_PROCESS_TIMEOUT" = some "1"
    ∧ ("1" : String) ≠ "900" := by
  exact ⟨rfl, by decide⟩

/-- C2, amended: in `AbstractPhpUnit.run_phpunit` the `LANG` overlay is
merged over the ambient environment (the spawned process sees
`LANG=C.UTF-8` and the ambient value for every other key), but in
`CoreNpmComposerTest.run_composer_test` the merge direction is reversed:
every ambient key keeps its ambient value, and the overlay entry
`COMPOSER_PROCESS_TIMEOUT=900` is seen only when the ambient environment
lacks that key; no key other than the two overlay keys is invented. -/
theorem C2_env_merge_amended (environ : String → Option String) :
    phpunitEnv environ "LANG" = some "C.UTF-8"
    ∧ (∀ k, k ≠ "LANG" → phpunitEnv environ k = environ k)
    ∧ (∀ k v, environ k = some v → composerTestEnv environ k = some v)
    ∧ (environ "COMPOSER_PROCESS_TIMEOUT" = none →
        composerTestEnv environ "COMPOSER_PROCESS_TIMEOUT" = some "900")
    ∧ (∀ k, k ≠ "COMPOSER_PROCESS_TIMEOUT" → environ k = none →
        composerTestEnv environ k = none) := by
  refine ⟨rfl, ?_, ?_, ?_, ?_⟩
  · intro k hk
    have hb : (k == "LANG") = false := by simpa using hk
    cases h : environ k <;> simp [phpunitEnv, dictUpdate, hb, h]
  · intro k v h
    simp [composerTestEnv, dictUpdate, h]
  · intro h
    simp [composerTestEnv, dictUpdate, h]
  · intro k hk h
    have hb : (k == "COMPOSER_PROCESS_TIMEOUT") = false := by simpa using hk
    simp [composerTestEnv, dictUpdate, h, hb]

/-- C2, witness: the amended statement evaluated at the empty ambient
environment. -/
theorem C2_env_merge_witness :
    phpunitEnv (fun _ => none) "LANG" = some "C.UTF-8"
    ∧ composerTestEnv (fun _ => none) "COMPOSER_PROCESS_TIMEOUT" = some "900" :=
  ⟨(C2_env_merge_amended (fun _ => none)).1,
   (C2_env_merge_amended (fun _ => none)).2.2.2.1 rfl⟩

/-! ### C3 -/

/-- C3: for every `InstallMediaWiki` step whose database engine is not one
of sqlite, mysql or postgres, `execute()` raises at the database adapter
factory, before any external side effect: no database is started, no
installer invoked, nothing spawned, and no silent default occurs (the
result is exactly the configuration error, with an empty trace). -/
theorem C3_unsupported_engine_raises (c : InstallMediaWiki) (db : DBHandle)
    (o : MWOracle) (h1 : c.db_engine ≠ "sqlite") (h2 : c.db_engine ≠ "mysql")
    (h3 : c.db_engine ≠ "postgres") :
    InstallMediaWiki.executeModel c db o
      = ([], some ("Unknown database engine " ++ c.db_engine), none) := by
  have b1 : (c.db_engine == "sqlite") = false := by simpa using h1
  have b2 : (c.db_engine == "mysql") = false := by simpa using h2
  have b3 : (c.db_engine == "postgres") = false := by simpa using h3
  simp [InstallMediaWiki.executeModel, getDBClass, b1, b2, b3]

/-- C3, witness: a step constructed with engine `mongodb` raises the
configuration error with no side effect. -/
theorem C3_unsupported_engine_witness :
    InstallMediaWiki.executeModel ⟨"/w", "mongodb", "/db", "/dump", "/log", false⟩
      c1DB mwNoFail = ([], some "Unknown database engine mongodb", none) :=
  C3_unsupported_engine_raises _ c1DB mwNoFail (by decide) (by decide) (by decide)

/-! ### C4 -/

/-- The concrete step of the C4 counterexample: selenium enabled, no
display supplied. -/
def c4Step : BrowserTests := ⟨"/w", false, true, none⟩

/-- A world where `tests/selenium` exists and nothing fails. -/
def c4World : BTWorld := ⟨true, fun _ _ => false⟩

/-- C4, counterexample: the claim says constructor-captured attributes are
never modified by `execute()` and that in particular `BrowserTests.display`
is unchanged.  For a step constructed with no display and selenium enabled,
`execute()` overwrites `display` with `:94`, and `__str__` afterwards
differs from the description before the call (`DISPLAY=:94` instead of
`DISPLAY=Xvfb`). -/
theorem C4_display_mutation_counterexample :
    c4Step.display = none
    ∧ (BrowserTests.executeModel c4Step c4World).2.2 = some ":94"
    ∧ BrowserTests.strModel
        (BrowserTests.mk c4Step.mw_install_path c4Step.qunit c4Step.selenium
          (BrowserTests.executeModel c4Step c4World).2.2)
      ≠ BrowserTests.strModel c4Step := by
  refine ⟨rfl, rfl, ?_⟩
  decide

/-- C4, amended: every constructor-captured attribute is unchanged by
`execute()` except `BrowserTests.display`, which `execute()` overwrites
with `:94` exactly when selenium is requested, `tests/selenium` exists,
the qunit phase did not already raise, and no display was supplied (`None`
or empty); whenever a display was supplied, `display` — and hence the
description — is unchanged. -/
theorem C4_display_frame_amended (c : BrowserTests) (w : BTWorld) :
    (BrowserTests.executeModel c w).2.2
      = (if (c.selenium && w.seleniumDirExists)
            && !(c.qunit && w.procFails qunitCmd c.mw_install_path)
            && !(strTruthy c.display)
         then some ":94" else c.display)
    ∧ (strTruthy c.display = true →
        (BrowserTests.executeModel c w).2.2 = c.display) := by
  cases hq : c.qunit && w.procFails qunitCmd c.mw_install_path <;>
    cases hs : c.selenium && w.seleniumDirExists <;>
      cases hd : strTruthy c.display <;>
        simp [BrowserTests.executeModel, hq, hs, hd]

/-- C4, witness: for a step constructed with display `:1`, execute leaves
the display unchanged. -/
theorem C4_display_frame_witness :
    (BrowserTests.executeModel ⟨"/w", false, true, some ":1"⟩ c4World).2.2
      = some ":1" :=
  (C4_display_frame_amended ⟨"/w", false, true, some ":1"⟩ c4World).2 rfl

/-! ### C5 -/

/-- C5: in `BrowserTests.execute`, on every exit path (qunit raising,
webdriver raising, or normal return) the service handles stopped are
exactly the handles started, in strictly reverse acquisition order; the
acquisition order starts the web server first, then — only when the
selenium suite actually runs — the virtual display (only when no display
was supplied, and then with the fixed identifier `:94`), and the browser
driver last, bound to the display in use (`:94` exactly when the virtual
display was acquired). -/
theorem C5_browser_service_nesting (c : BrowserTests) (w : BTWorld) :
    stopsOf (BrowserTests.executeModel c w).1
      = (startsOf (BrowserTests.executeModel c w).1).reverse
    ∧ startsOf (BrowserTests.executeModel c w).1
      = ("DevWebServer", "9412")
        :: (if (c.selenium && w.seleniumDirExists)
               && !(c.qunit && w.procFails qunitCmd c.mw_install_path)
            then
              (if strTruthy c.display then [] else [("Xvfb", ":94")])
              ++ [("ChromeWebDriver",
                   if strTruthy c.display then strOrElse c.display "" else ":94")]
            else []) := by
  cases hcq : c.qunit <;>
    cases hpf : w.procFails qunitCmd c.mw_install_path <;>
      cases hs : c.selenium && w.seleniumDirExists <;>
        cases hd : strTruthy c.display <;>
          simp [BrowserTests.executeModel, startsOf, stopsOf, hcq, hpf, hs, hd]

/-! ### C6 -/

/-- C6: in `CoreNpmComposerTest.run_composer_test`, when the changed-file
detector reports composer.json and .phpcs.xml unchanged and no changed
files with extensions php/php5/inc/sample, no external command is spawned
and the skip decision is logged (the whole trace is the skip line);
whenever composer.json or .phpcs.xml is among the changed files, the
composer test command is invoked on `.` in the install path. -/
theorem C6_composer_gating (c : CoreNpmComposerTest)
    (changedAll changedPhp : List String) (fails : ProcOracle) :
    (changedAll.contains "composer.json" = false →
      changedAll.contains ".phpcs.xml" = false →
      changedPhp = [] →
      CoreNpmComposerTest.run_composer_test c changedAll changedPhp fails
        = ([Event.logInfo "Skipping composer test (unneeded)"], none))
    ∧ ((changedAll.contains "composer.json" = true
        ∨ changedAll.contains ".phpcs.xml" = true) →
      Event.proc ["composer", "test", "."] c.mw_install_path
        ∈ (CoreNpmComposerTest.run_composer_test c changedAll changedPhp fails).1) := by
  constructor
  · intro h1 h2 h3
    have h1m : "composer.json" ∉ changedAll := by simpa using h1
    have h2m : ".phpcs.xml" ∉ changedAll := by simpa using h2
    simp [CoreNpmComposerTest.run_composer_test, h1m, h2m, h3]
  · intro h
    rcases h with h | h
    · have hm : "composer.json" ∈ changedAll := by simpa using h
      simp [CoreNpmComposerTest.run_composer_test, hm]
    · have hm : ".phpcs.xml" ∈ changedAll := by simpa using h
      simp [CoreNpmComposerTest.run_composer_test, hm]

/-- C6, witness: with nothing changed the step only logs the skip decision;
with composer.json changed the composer test runs on `.`. -/
theorem C6_composer_gating_witness :
    (CoreNpmComposerTest.run_composer_test ⟨"/w", true, true⟩ [] []
        (fun _ _ => false)
      = ([Event.logInfo "Skipping composer test (unneeded)"], none))
    ∧ Event.proc ["composer", "test", "."] "/w"
        ∈ (CoreNpmComposerTest.run_composer_test ⟨"/w", true, true⟩
            ["composer.json"] [] (fun _ _ => false)).1 :=
  ⟨(C6_composer_gating ⟨"/w", true, true⟩ [] [] (fun _ _ => false)).1
      rfl rfl rfl,
   (C6_composer_gating ⟨"/w", true, true⟩ ["composer.json"] []
      (fun _ _ => false)).2 (Or.inl (by decide))⟩

/-! ### C1 -/

/-- No branch of the install phase emits a service-stop event. -/
lemma installPhase_no_svcStop (c : InstallMediaWiki) (o : MWOracle)
    (a : List String) :
    (InstallMediaWiki.installPhase c o a).1.filter isSvcStop = [] := by
  unfold InstallMediaWiki.installPhase
  cases hi : o.installFails <;>
    cases hl : o.procFails ["php", "-l", c.mw_install_path ++ "/LocalSettings.php"] "" <;>
      cases hv : c.use_vendor <;>
        cases hu : o.updateFails <;>
          cases hr : o.rebuildFails <;>
            simp [hi, hl, hv, hu, hr, isSvcStop]

/-- C1, counterexample: the claim says every service handle started during
`execute()` is also stopped on every exit path, and in particular that the
database handle started by `InstallMediaWiki.execute` is stopped before
`execute` returns.  On a concrete sqlite run in which nothing fails, the
database handle is started, `execute` returns normally, and no service-stop
of any kind occurs in the whole trace. -/
theorem C1_db_started_never_stopped_counterexample :
    Event.svcStart "database" "sqlite"
        ∈ (InstallMediaWiki.executeModel c1Step c1DB mwNoFail).1
    ∧ (InstallMediaWiki.executeModel c1Step c1DB mwNoFail).1.filter isSvcStop = []
    ∧ (InstallMediaWiki.executeModel c1Step c1DB mwNoFail).2.1 = none := by
  decide

/-- C1, amended: `InstallMediaWiki.execute` never stops the database handle
it starts, on any exit path; instead, whenever the handle was started the
step retains it past the return of `execute` through the class-level attribute
`InstallMediaWiki.db_backend` ("hold a reference to prevent gc"). -/
theorem C1_db_retained_not_stopped (c : InstallMediaWiki) (db : DBHandle)
    (o : MWOracle) :
    (InstallMediaWiki.executeModel c db o).1.filter isSvcStop = []
    ∧ (Event.svcStart "database" c.db_engine
          ∈ (InstallMediaWiki.executeModel c db o).1 →
        (InstallMediaWiki.executeModel c db o).2.2 = some db) := by
  unfold InstallMediaWiki.executeModel
  cases hg : getDBClass c.db_engine with
  | error e => simp [isSvcStop]
  | ok u =>
    cases hd : o.dbStartFails <;>
      cases h1 : c.db_engine == "sqlite" <;>
        cases h2 : c.db_engine == "mysql" || c.db_engine == "postgres" <;>
          simp [hd, h1, h2, isSvcStop, installPhase_no_svcStop,
            List.filter_append]

/-- C1, witness for the amended statement: the concrete sqlite run. -/
theorem C1_db_retained_witness :
    (InstallMediaWiki.executeModel c1Step c1DB mwNoFail).1.filter isSvcStop = []
    ∧ (InstallMediaWiki.executeModel c1Step c1DB mwNoFail).2.2 = some c1DB :=
  ⟨(C1_db_retained_not_stopped c1Step c1DB mwNoFail).1,
   (C1_db_retained_not_stopped c1Step c1DB mwNoFail).2 (by decide)⟩

/-! ### C9 -/

/-- C9: for `ExtSkinComposerNpmTest`, a missing manifest is not a failure:
when the directory lacks a composer.json, `run_extskin_composer` logs a
warning and returns without spawning anything (the whole trace is the
warning), likewise `run_extskin_npm` when package.json is absent; and with
both manifests absent `execute()` still completes normally (provided its
final git clean does not itself fail). -/
theorem C9_missing_manifest (c : ExtSkinComposerNpmTest) (w : ESWorld) :
    (w.composerJsonExists = false →
      ExtSkinComposerNpmTest.run_extskin_composer c w
        = ([Event.logWarning (pyBasename c.directory ++ " lacks a composer.json")],
           none))
    ∧ (w.packageJsonExists = false →
      ExtSkinComposerNpmTest.run_extskin_npm c w
        = ([Event.logWarning (pyBasename c.directory ++ " lacks a package.json")],
           none))
    ∧ (w.composerJsonExists = false → w.packageJsonExists = false →
      w.procFails ["git", "clean", "-xqdf"] c.directory = false →
      (ExtSkinComposerNpmTest.executeModel c w).2 = none) := by
  refine ⟨?_, ?_, ?_⟩
  · intro h
    simp [ExtSkinComposerNpmTest.run_extskin_composer, h]
  · intro h
    simp [ExtSkinComposerNpmTest.run_extskin_npm, h]
  · intro h1 h2 h3
    cases hc : c.composer <;> cases hn : c.npm <;>
      simp [ExtSkinComposerNpmTest.executeModel,
        ExtSkinComposerNpmTest.run_extskin_composer,
        ExtSkinComposerNpmTest.run_extskin_npm, h1, h2, h3, hc, hn]

/-- C9, witness: a concrete directory lacking both manifests. -/
theorem C9_missing_manifest_witness :
    ExtSkinComposerNpmTest.run_extskin_composer ⟨"/t", true, true⟩
        ⟨false, false, fun _ _ => false⟩
      = ([Event.logWarning (pyBasename "/t" ++ " lacks a composer.json")], none)
    ∧ (ExtSkinComposerNpmTest.executeModel ⟨"/t", true, true⟩
        ⟨false, false, fun _ _ => false⟩).2 = none :=
  ⟨(C9_missing_manifest ⟨"/t", true, true⟩ ⟨false, false, fun _ _ => false⟩).1 rfl,
   (C9_missing_manifest ⟨"/t", true, true⟩
      ⟨false, false, fun _ _ => false⟩).2.2 rfl rfl rfl⟩

/-! ### C10 -/

/-- Every process spawned by a `runCmds` sequence comes from its command
list and runs in its working directory. -/
lemma runCmds_argvs (fails : ProcOracle) (cwd : String) :
    ∀ cmds, ∀ p ∈ procsOf (runCmds fails cwd cmds).1, p.1 ∈ cmds ∧ p.2 = cwd := by
  intro cmds
  induction cmds with
  | nil => simp [runCmds, procsOf]
  | cons cmd rest ih =>
    intro p hp
    cases h : fails cmd cwd <;> simp [runCmds, procsOf, h] at hp
    · rcases hp with hp | hp
      · simp [hp]
      · have := ih p (by simpa [procsOf] using hp)
        exact ⟨by simp [this.1], this.2⟩
    · simp [hp]

/-- Every process spawned by the composer sub-task is one of the composer
commands. -/
lemma run_extskin_composer_argvs (c : ExtSkinComposerNpmTest) (w : ESWorld) :
    ∀ p ∈ procsOf (ExtSkinComposerNpmTest.run_extskin_composer c w).1,
      p.1 ∈ extskinComposerCmds := by
  intro p hp
  cases h : w.composerJsonExists <;>
    simp [ExtSkinComposerNpmTest.run_extskin_composer, h, procsOf] at hp
  exact (runCmds_argvs w.procFails c.directory extskinComposerCmds p
    (by simpa [procsOf] using hp)).1

/-- Every process spawned by the npm sub-task is one of the npm commands. -/
lemma run_extskin_npm_argvs (c : ExtSkinComposerNpmTest) (w : ESWorld) :
    ∀ p ∈ procsOf (ExtSkinComposerNpmTest.run_extskin_npm c w).1,
      p.1 ∈ extskinNpmCmds := by
  intro p hp
  cases h : w.packageJsonExists <;>
    simp [ExtSkinComposerNpmTest.run_extskin_npm, h, procsOf] at hp
  exact (runCmds_argvs w.procFails c.directory extskinNpmCmds p
    (by simpa [procsOf] using hp)).1

/-- None of the composer or npm commands is the git clean command. -/
lemma batch_cmd_ne_gitclean :
    (∀ cmd ∈ extskinComposerCmds, cmd ≠ ["git", "clean", "-xqdf"])
    ∧ (∀ cmd ∈ extskinNpmCmds, cmd ≠ ["git", "clean", "-xqdf"]) := by
  decide

/-- C10: whenever the submitted sub-tasks all return normally,
`ExtSkinComposerNpmTest.execute` runs `git clean -xqdf` in the target
directory exactly once, strictly after the whole task batch, for every
combination of the composer and npm flags; and when both flags are false
the batch is empty, so the git clean is the only spawned command. -/
theorem C10_git_clean_once (c : ExtSkinComposerNpmTest) (w : ESWorld)
    (hc : c.composer = true →
      (ExtSkinComposerNpmTest.run_extskin_composer c w).2 = none)
    (hn : c.npm = true →
      (ExtSkinComposerNpmTest.run_extskin_npm c w).2 = none) :
    (∃ batch,
      (ExtSkinComposerNpmTest.executeModel c w).1
        = batch ++ [Event.logInfo (c.directory ++ ": git clean -xqdf"),
                    Event.proc ["git", "clean", "-xqdf"] c.directory]
      ∧ (∀ p ∈ procsOf batch, p.1 ≠ ["git", "clean", "-xqdf"])
      ∧ (c.composer = false → c.npm = false → batch = []))
    ∧ (procsOf (ExtSkinComposerNpmTest.executeModel c w).1).countP
        (fun p => p.1 == ["git", "clean", "-xqdf"]) = 1 := by
  have hbatch : ∀ p ∈ procsOf
      ((if c.composer then ExtSkinComposerNpmTest.run_extskin_composer c w
        else ([], none)).1
      ++ (if c.npm then ExtSkinComposerNpmTest.run_extskin_npm c w
        else ([], none)).1),
      p.1 ≠ ["git", "clean", "-xqdf"] := by
    intro p hp
    rw [procsOf, List.filterMap_append] at hp
    rcases List.mem_append.1 hp with hp | hp
    · cases hcb : c.composer <;> simp [hcb] at hp
      · exact batch_cmd_ne_gitclean.1 p.1
          (run_extskin_composer_argvs c w p (by simpa [procsOf] using hp))
    · cases hnb : c.npm <;> simp [hnb] at hp
      · exact batch_cmd_ne_gitclean.2 p.1
          (run_extskin_npm_argvs c w p (by simpa [procsOf] using hp))
  have tc2 : (if c.composer then ExtSkinComposerNpmTest.run_extskin_composer c w
      else ([], none)).2 = none := by
    cases hcb : c.composer
    · simp
    · simpa using hc hcb
  have tn2 : (if c.npm then ExtSkinComposerNpmTest.run_extskin_npm c w
      else ([], none)).2 = none := by
    cases hnb : c.npm
    · simp
    · simpa using hn hnb
  have htr : (ExtSkinComposerNpmTest.executeModel c w).1
      = ((if c.composer then ExtSkinComposerNpmTest.run_extskin_composer c w
          else ([], none)).1
        ++ (if c.npm then ExtSkinComposerNpmTest.run_extskin_npm c w
          else ([], none)).1)
        ++ [Event.logInfo (c.directory ++ ": git clean -xqdf"),
            Event.proc ["git", "clean", "-xqdf"] c.directory] := by
    rw [ExtSkinComposerNpmTest.executeModel]
    rw [tc2]
    simp [tn2]
  refine ⟨⟨_, htr, hbatch, ?_⟩, ?_⟩
  · intro h1 h2
    simp [h1, h2]
  · rw [htr, procsOf, List.filterMap_append, List.countP_append]
    have h0 : (List.filterMap
        (fun e => match e with
          | Event.proc argv cwd => some (argv, cwd)
          | _ => none)
        ((if c.composer then ExtSkinComposerNpmTest.run_extskin_composer c w
          else ([], none)).1
        ++ (if c.npm then ExtSkinComposerNpmTest.run_extskin_npm c w
          else ([], none)).1)).countP
        (fun p => p.1 == ["git", "clean", "-xqdf"]) = 0 := by
      rw [List.countP_eq_zero]
      intro p hp
      have := hbatch p (by simpa [procsOf] using hp)
      simpa using this
    rw [h0]
    simp

/-- The concrete step of the C10 witness: both flags off. -/
def c10Step : ExtSkinComposerNpmTest := ⟨"/t", false, false⟩

/-- A world with both manifests present and no failures. -/
def c10World : ESWorld := ⟨true, true, fun _ _ => false⟩

/-- C10, witness: with both flags off the batch is empty and the git clean
is the only spawned command. -/
theorem C10_git_clean_once_witness :
    (∃ batch,
      (ExtSkinComposerNpmTest.executeModel c10Step c10World).1
        = batch ++ [Event.logInfo (c10Step.directory ++ ": git clean -xqdf"),
                    Event.proc ["git", "clean", "-xqdf"] c10Step.directory]
      ∧ (∀ p ∈ procsOf batch, p.1 ≠ ["git", "clean", "-xqdf"])
      ∧ (c10Step.composer = false → c10Step.npm = false → batch = []))
    ∧ (procsOf (ExtSkinComposerNpmTest.executeModel c10Step c10World).1).countP
        (fun p => p.1 == ["git", "clean", "-xqdf"]) = 1 :=
  C10_git_clean_once c10Step c10World
    (fun h => absurd h (by decide)) (fun h => absurd h (by decide))

/-! ### C8 -/

/-- Splitting a comma-free word followed by a comma peels off that word. -/
lemma splitCommasAux_append (w cs : List Char) (h : ∀ a ∈ w, a ≠ ',') :
    splitCommasAux (w ++ ',' :: cs) = w :: splitCommasAux cs := by
  induction w with
  | nil => simp [splitCommasAux]
  | cons a l ih =>
    have ha : (a == ',') = false := by simpa using h a (by simp)
    have hl := ih fun b hb => h b (by simp [hb])
    simp [splitCommasAux, ha, hl]

/-- Whatever groups the caller passes, the value
of the comma-join of always_excluded and exclude_group splits into the three
always-excluded groups followed by the groups from the caller. -/
lemma splitCommas_always_excluded (eg : List String) :
    ∃ t, splitCommas (pyJoin "," (alwaysExcluded ++ eg))
      = "Broken" :: "ParserFuzz" :: "Stub" :: t := by
  have hmk : ∀ s : String, String.mk s.data = s := fun _ => rfl
  cases eg with
  | nil => exact ⟨[], by decide⟩
  | cons e es =>
    refine ⟨(splitCommasAux (pyJoin "," (e :: es)).data).map (fun cs => String.mk cs), ?_⟩
    have hjoin : pyJoin "," (alwaysExcluded ++ e :: es)
        = "Broken" ++ ","
          ++ ("ParserFuzz" ++ "," ++ ("Stub" ++ "," ++ pyJoin "," (e :: es))) := rfl
    have hcomma : ("," : String).data = [','] := rfl
    have hdata : (pyJoin "," (alwaysExcluded ++ e :: es)).data
        = ("Broken" : String).data
          ++ ',' :: (("ParserFuzz" : String).data
          ++ ',' :: (("Stub" : String).data
          ++ ',' :: (pyJoin "," (e :: es)).data)) := by
      rw [hjoin]
      simp [String.data_append, hcomma]
    have h1 : ∀ a ∈ ("Broken" : String).data, a ≠ ',' := by decide
    have h2 : ∀ a ∈ ("ParserFuzz" : String).data, a ≠ ',' := by decide
    have h3 : ∀ a ∈ ("Stub" : String).data, a ≠ ',' := by decide
    rw [splitCommas, hdata, splitCommasAux_append _ _ h1,
      splitCommasAux_append _ _ h2, splitCommasAux_append _ _ h3]
    simp [hmk]

/-- Appending a nonempty suffix yields a nonempty string (so a joined
junit path is always truthy). -/
lemma append_ne_empty_of_right (a b : String) (hb : b.data ≠ []) :
    (a ++ b) ≠ "" := by
  intro h
  have hd : (a ++ b).data = [] := by rw [h]
  rw [String.data_append] at hd
  exact hb (List.append_eq_nil.mp hd).2

/-- C8: every phpunit command assembled by `AbstractPhpUnit.run_phpunit`
passes an `--exclude-group` option whose comma-separated value starts with
the groups Broken, ParserFuzz and Stub, whatever the caller-supplied
`group` and `exclude_group` are; in particular the database-less run
(`PhpUnitDatabaseless.execute`) spawns exactly one command, excluding
Broken, ParserFuzz, Stub and Database, and the database run
(`PhpUnitDatabase.execute`) spawns exactly one command that selects group
Database yet still excludes the three groups. -/
theorem C8_always_excluded_groups
    (testsuite junit_file : Option String) (group exclude_group : List String)
    (cdbless : PhpUnitDatabaseless) (cdb : PhpUnitDatabase)
    (fails : ProcOracle) :
    (∃ pre v post t,
      runPhpunitCmd testsuite junit_file group exclude_group
        = pre ++ ["--exclude-group", v] ++ post
      ∧ splitCommas v = "Broken" :: "ParserFuzz" :: "Stub" :: t)
    ∧ (∃ pre post,
      procsOf (PhpUnitDatabaseless.executeModel cdbless fails).1
        = [(pre ++ ["--exclude-group", "Broken,ParserFuzz,Stub,Database"] ++ post,
            cdbless.mw_install_path)])
    ∧ (∃ pre post,
      procsOf (PhpUnitDatabase.executeModel cdb fails).1
        = [(pre ++ (["--group", "Database"]
              ++ (["--exclude-group", "Broken,ParserFuzz,Stub"] ++ post)),
            cdb.mw_install_path)]) := by
  refine ⟨?_, ?_, ?_⟩
  · obtain ⟨t, ht⟩ := splitCommas_always_excluded exclude_group
    refine ⟨["php", "tests/phpunit/phpunit.php", "--debug-tests"]
        ++ (if strTruthy testsuite then ["--testsuite", strOrElse testsuite ""] else [])
        ++ (if group.isEmpty then [] else ["--group", pyJoin "," group]),
      pyJoin "," (alwaysExcluded ++ exclude_group),
      (if strTruthy junit_file then ["--log-junit", strOrElse junit_file ""] else []),
      t, ?_, ht⟩
    simp [runPhpunitCmd, List.append_assoc]
  · have hv : pyJoin "," (alwaysExcluded ++ ["Database"])
        = "Broken,ParserFuzz,Stub,Database" := by decide
    refine ⟨["php", "tests/phpunit/phpunit.php", "--debug-tests"]
        ++ (if strTruthy cdbless.testsuite then
              ["--testsuite", strOrElse cdbless.testsuite ""] else []),
      ["--log-junit", cdbless.log_dir ++ "/junit-dbless.xml"], ?_⟩
    have hne : cdbless.log_dir ++ "/junit-dbless.xml" ≠ "" :=
      append_ne_empty_of_right _ _ (by decide)
    simp [PhpUnitDatabaseless.executeModel, AbstractPhpUnit.run_phpunit,
      runPhpunitCmd, procsOf, hv, hne, strTruthy, strOrElse, List.append_assoc]
  · have hv : pyJoin "," alwaysExcluded = "Broken,ParserFuzz,Stub" := by decide
    have hg : pyJoin "," ["Database"] = "Database" := rfl
    refine ⟨["php", "tests/phpunit/phpunit.php", "--debug-tests"]
        ++ (if strTruthy cdb.testsuite then
              ["--testsuite", strOrElse cdb.testsuite ""] else []),
      ["--log-junit", cdb.log_dir ++ "/junit-db.xml"], ?_⟩
    have hne : cdb.log_dir ++ "/junit-db.xml" ≠ "" :=
      append_ne_empty_of_right _ _ (by decide)
    simp [PhpUnitDatabase.executeModel, AbstractPhpUnit.run_phpunit,
      runPhpunitCmd, procsOf, hv, hg, hne, strTruthy, strOrElse,
      List.append_assoc]

/-! ### C7 -/

/-- The inner command loop issues exactly the successful prefix of its
command list plus the first failing command (if any), and propagates
exactly that first failure. -/
lemma runSubmoduleCmds_spec (fails : ProcOracle) (dirpath : String) :
    ∀ cmds : List (List String),
      (runSubmoduleCmds fails dirpath cmds).2
        = ((cmds.find? fun cmd => fails cmd dirpath).map
            fun cmd => CPE.mk cmd dirpath)
      ∧ procsOf (runSubmoduleCmds fails dirpath cmds).1
        = ((cmds.takeWhile fun cmd => !(fails cmd dirpath)).map
            fun cmd => (cmd, dirpath))
          ++ ((cmds.find? fun cmd => fails cmd dirpath).toList.map
            fun cmd => (cmd, dirpath)) := by
  intro cmds
  induction cmds with
  | nil => simp [runSubmoduleCmds, procsOf]
  | cons cmd rest ih =>
    obtain ⟨ih1, ih2⟩ := ih
    rw [procsOf] at ih2
    cases h : fails cmd dirpath <;>
      simp [runSubmoduleCmds, procsOf, h, List.find?_cons, List.takeWhile_cons,
        ih1, ih2]

/-- C7: `ExtSkinSubmoduleUpdateCommand.execute` never swallows an
external-tool failure.  Relative to the full planned command sequence
(three git submodule commands, in fixed order, per visited directory with a
`.gitmodules` file), the commands actually spawned are exactly the
successful prefix plus the first failing command, after which nothing
further is issued, and the error propagated to the caller is exactly that
error of the first failing command (`none` when every command succeeds). -/
theorem C7_submodule_fail_fast (fails : ProcOracle) (entries : List WalkEntry) :
    (ExtSkinSubmoduleUpdateCommand.executeModel fails entries).2
      = (((plannedCmds entries).find? fun p => fails p.1 p.2).map
          fun p => CPE.mk p.1 p.2)
    ∧ procsOf (ExtSkinSubmoduleUpdateCommand.executeModel fails entries).1
      = ((plannedCmds entries).takeWhile fun p => !(fails p.1 p.2))
        ++ ((plannedCmds entries).find? fun p => fails p.1 p.2).toList := by
  suffices h : (walkDirs fails entries).2
      = (((plannedCmds entries).find? fun p => fails p.1 p.2).map
          fun p => CPE.mk p.1 p.2)
      ∧ procsOf (walkDirs fails entries).1
        = ((plannedCmds entries).takeWhile fun p => !(fails p.1 p.2))
          ++ ((plannedCmds entries).find? fun p => fails p.1 p.2).toList by
    exact ⟨h.1, by simpa [ExtSkinSubmoduleUpdateCommand.executeModel, procsOf]
      using h.2⟩
  induction entries with
  | nil => simp [walkDirs, plannedCmds, procsOf]
  | cons entry rest ih =>
    cases hg : entry.filenames.contains ".gitmodules"
    case false =>
      have hgm : ".gitmodules" ∉ entry.filenames := by simpa using hg
      have hplanned : plannedCmds (entry :: rest) = plannedCmds rest := by
        simp [plannedCmds, List.filter_cons, hgm]
      rw [walkDirs, if_neg (by simpa using hgm), hplanned]
      exact ih
    case true =>
      have hgm : ".gitmodules" ∈ entry.filenames := by simpa using hg
      have hplanned : plannedCmds (entry :: rest)
          = (submoduleCmds.map fun cmd => (cmd, entry.dirpath))
            ++ plannedCmds rest := by
        simp [plannedCmds, List.filter_cons, hgm]
      obtain ⟨hspec2, hspec1⟩ :=
        runSubmoduleCmds_spec fails entry.dirpath submoduleCmds
      have hfmap : ((submoduleCmds.map fun cmd => (cmd, entry.dirpath)).find?
            fun p => fails p.1 p.2)
          = ((submoduleCmds.find? fun cmd => fails cmd entry.dirpath).map
            fun cmd => (cmd, entry.dirpath)) := by
        rw [List.find?_map]
        rfl
      have htwmap : ((submoduleCmds.map fun cmd => (cmd, entry.dirpath)).takeWhile
            fun p => !(fails p.1 p.2))
          = ((submoduleCmds.takeWhile fun cmd => !(fails cmd entry.dirpath)).map
            fun cmd => (cmd, entry.dirpath)) := by
        rw [List.takeWhile_map]
        rfl
      cases hf : submoduleCmds.find? (fun cmd => fails cmd entry.dirpath) with
      | some cmd =>
        have hr2 : (runSubmoduleCmds fails entry.dirpath submoduleCmds).2
            = some (CPE.mk cmd entry.dirpath) := by
          rw [hspec2, hf]
          rfl
        have hlen : ¬(((submoduleCmds.takeWhile
              fun cmd => !(fails cmd entry.dirpath)).length
            = submoduleCmds.length)) := by
          intro hlen
          have hpre := List.takeWhile_prefix (fun cmd => !(fails cmd entry.dirpath)) (l := submoduleCmds)
          have heq : (submoduleCmds.takeWhile
                fun cmd => !(fails cmd entry.dirpath)) = submoduleCmds :=
            hpre.eq_of_length hlen
          have hall := List.takeWhile_eq_self_iff.mp heq
          have := hall _ (List.mem_of_find?_eq_some hf)
          have hfails := List.find?_some hf
          simp at this
          exact absurd hfails (by simpa using this)
        constructor
        · rw [walkDirs, if_pos hg]
          simp only [hr2]
          simp only [hplanned, List.find?_append, hfmap, hf]
          rfl
        · rw [walkDirs, if_pos hg]
          simp only [hr2]
          simp only [hplanned, List.find?_append, List.takeWhile_append,
            hfmap, hf, htwmap, List.length_map, if_neg hlen]
          simpa [hf] using hspec1
      | none =>
        have hr2 : (runSubmoduleCmds fails entry.dirpath submoduleCmds).2
            = none := by
          rw [hspec2, hf]
          rfl
        have hall : ∀ cmd ∈ submoduleCmds, ¬(fails cmd entry.dirpath = true) :=
          List.find?_eq_none.mp hf
        have htw : (submoduleCmds.takeWhile
              fun cmd => !(fails cmd entry.dirpath)) = submoduleCmds :=
          List.takeWhile_eq_self_iff.mpr fun x hx => by simp [hall x hx]
        have hlen : ((submoduleCmds.takeWhile
              fun cmd => !(fails cmd entry.dirpath)).length
            = submoduleCmds.length) := by
          rw [htw]
        constructor
        · rw [walkDirs, if_pos hg]
          simp only [hr2]
          simp only [hplanned, List.find?_append, hfmap, hf]
          simpa using ih.1
        · rw [walkDirs, if_pos hg]
          simp only [hr2]
          simp only [hplanned, List.find?_append, List.takeWhile_append,
            hfmap, hf, htwmap, List.length_map, if_pos hlen]
          rw [procsOf, List.filterMap_append]
          have hr1 : procsOf (runSubmoduleCmds fails entry.dirpath submoduleCmds).1
              = (submoduleCmds.map fun cmd => (cmd, entry.dirpath)) := by
            rw [hspec1, hf, htw]
            simp
          calc List.filterMap _ (runSubmoduleCmds fails entry.dirpath submoduleCmds).1
                ++ List.filterMap _ (walkDirs fails rest).1
              = (submoduleCmds.map fun cmd => (cmd, entry.dirpath))
                ++ procsOf (walkDirs fails rest).1 := by
                rw [← procsOf, ← procsOf, hr1]
            _ = (submoduleCmds.map fun cmd => (cmd, entry.dirpath))
                ++ (((plannedCmds rest).takeWhile fun p => !(fails p.1 p.2))
                  ++ ((plannedCmds rest).find? fun p => fails p.1 p.2).toList) := by
                rw [ih.2]
            _ = ((submoduleCmds.map fun cmd => (cmd, entry.dirpath))
                  ++ ((plannedCmds rest).takeWhile fun p => !(fails p.1 p.2)))
                ++ ((plannedCmds rest).find? fun p => fails p.1 p.2).toList := by
                rw [List.append_assoc]

end Quibble
